import Mathlib

/- Verification development for the Tabs primitive
   (packages/react/tabs/src/Tabs.tsx): a shallow embedding of the four
   components (Tabs root, TabsList, TabsTrigger, TabsContent), the derived
   identifier functions, the interaction handlers attached by TabsTrigger,
   and the controlled/uncontrolled state policy of the root. -/

/-- Activation mode of the tabs root: automatic (focus follows selection) or manual. -/
inductive ActivationMode
  | automatic
  | manual
deriving DecidableEq, Repr

/-- Shared context value published by the Tabs root to all descendants
(baseId, current value, orientation, direction, activation mode). The change
callback is modelled separately: handlers return the value they would pass to
it, or none. -/
structure TabsContextValue where
  baseId : String
  value : Option String
  orientation : String
  dir : String
  activationMode : ActivationMode
deriving DecidableEq, Repr

/-- Keyboard event as observed by the onKeyDown handler. -/
structure KeyboardEvent where
  key : String
deriving DecidableEq, Repr

/-- Mouse event as observed by the onMouseDown handler. -/
structure MouseEvent where
  button : Nat
  ctrlKey : Bool
deriving DecidableEq, Repr

/-- Source function makeTriggerId: the trigger element identifier derived from
the instance baseId and the tab value. -/
def makeTriggerId (baseId value : String) : String :=
  baseId ++ "-trigger-" ++ value

/-- Source function makeContentId: the content element identifier derived from
the instance baseId and the tab value. -/
def makeContentId (baseId value : String) : String :=
  baseId ++ "-content-" ++ value

/-- Derived selection test shared by TabsTrigger and TabsContent:
the strict equality comparison of the local value with the context value. -/
def isSelected (value : String) (ctxValue : Option String) : Bool :=
  some value == ctxValue

/-- Internal key-down handler of TabsTrigger: activate on Space or Enter when
not disabled. Returns the value passed to the context change callback, or none. -/
def TabsTrigger.onKeyDownHandler (disabled : Bool) (value : String)
    (event : KeyboardEvent) : Option String :=
  if !disabled && (event.key == " " || event.key == "Enter") then some value else none

/-- Internal mouse-down handler of TabsTrigger: activate on the primary (left)
button without the control key, when not disabled. -/
def TabsTrigger.onMouseDownHandler (disabled : Bool) (value : String)
    (event : MouseEvent) : Option String :=
  if !disabled && event.button == 0 && event.ctrlKey == false then some value else none

/-- Internal focus handler of TabsTrigger: automatic activation when not
already selected, not disabled, and the activation mode is not manual. -/
def TabsTrigger.onFocusHandler (isSel disabled : Bool) (activationMode : ActivationMode)
    (value : String) : Option String :=
  let isAutomaticActivation := activationMode != ActivationMode.manual
  if !isSel && !disabled && isAutomaticActivation then some value else none

/-- Rendered TabsTrigger element: observable attributes plus the attached
interaction handlers. -/
structure TriggerElement where
  role : String
  ariaSelected : Bool
  ariaControls : String
  ariaDisabled : Option Bool
  dataState : String
  dataDisabled : Option String
  id : String
  focusable : Bool
  active : Bool
  onKeyDown : KeyboardEvent → Option String
  onMouseDown : MouseEvent → Option String
  onFocus : Unit → Option String

/-- Rendering of TabsTrigger from the context, its value and disabled flag,
following the source component body. -/
def TabsTrigger.render (ctx : TabsContextValue) (value : String) (disabled : Bool) :
    TriggerElement :=
  let triggerId := makeTriggerId ctx.baseId value
  let contentId := makeContentId ctx.baseId value
  let isSel := isSelected value ctx.value
  { role := "tab"
    ariaSelected := isSel
    ariaControls := contentId
    ariaDisabled := if disabled then some true else none
    dataState := if isSel then "active" else "inactive"
    dataDisabled := if disabled then some "" else none
    id := triggerId
    focusable := !disabled
    active := isSel
    onKeyDown := TabsTrigger.onKeyDownHandler disabled value
    onMouseDown := TabsTrigger.onMouseDownHandler disabled value
    onFocus := fun _ => TabsTrigger.onFocusHandler isSel disabled ctx.activationMode value }

/-- Rendered TabsContent element: observable attributes plus the conditionally
rendered children (none when the panel is not selected). -/
structure ContentElement (α : Type) where
  dataState : String
  dataOrientation : String
  role : String
  ariaLabelledBy : String
  hidden : Bool
  id : String
  tabIndex : Nat
  renderedChildren : Option α

/-- Rendering of TabsContent from the context, its value and children,
following the source component body: the element stays present with its stable
id, is hidden when not selected, and renders its children only when selected. -/
def TabsContent.render {α : Type} (ctx : TabsContextValue) (value : String)
    (children : α) : ContentElement α :=
  let triggerId := makeTriggerId ctx.baseId value
  let contentId := makeContentId ctx.baseId value
  let isSel := isSelected value ctx.value
  { dataState := if isSel then "active" else "inactive"
    dataOrientation := ctx.orientation
    role := "tabpanel"
    ariaLabelledBy := triggerId
    hidden := !isSel
    id := contentId
    tabIndex := 0
    renderedChildren := if isSel then some children else none }

/-- Rendered TabsList element (configuration relay and tablist role). -/
structure ListElement where
  role : String
  dir : String
  loop : Bool

/-- Rendering of TabsList from the context and its loop flag. -/
def TabsList.render (ctx : TabsContextValue) (loop : Bool) : ListElement :=
  { role := "tablist", dir := ctx.dir, loop := loop }

/-- Modelled from the spec: the useControllableState hook (a package of this
repository not under src/). The prop field is the optional external value and
internalValue the internal cell seeded from the default value. If an external
value is supplied it is authoritative; an internal change request then only
invokes the notification callback. Without an external value the internal cell
is mutated and the same callback is invoked. -/
structure ControllableState where
  prop : Option String
  internalValue : Option String
deriving DecidableEq, Repr

/-- Resolved selection value published to descendants: the external value when
supplied, otherwise the internal cell. -/
def ControllableState.value (s : ControllableState) : Option String :=
  match s.prop with
  | some v => some v
  | none => s.internalValue

/-- Internal change request: returns the next state together with the value the
notification callback is invoked with. Controlled mode leaves the state
untouched; uncontrolled mode mutates the internal cell. -/
def ControllableState.setValue (s : ControllableState) (v : String) :
    ControllableState × String :=
  if s.prop.isSome then (s, v) else ({ s with internalValue := some v }, v)

/-- Component name constant of the root. -/
def TABS_NAME : String := "Tabs"

/-- Component name constant of the list. -/
def TAB_LIST_NAME : String := "TabsList"

/-- Component name constant of the trigger. -/
def TRIGGER_NAME : String := "TabsTrigger"

/-- Component name constant of the content panel. -/
def CONTENT_NAME : String := "TabsContent"

/-- Modelled from the spec: the scoped context consumer produced by
createContextScope (a package of this repository not under src/). Reading the
context without an enclosing provider fails loudly with a descriptive error
naming the consuming unit and the expected provider. -/
def useTabsContext (consumerName : String) (ctx : Option TabsContextValue) :
    Except String TabsContextValue :=
  match ctx with
  | some c => Except.ok c
  | none => Except.error (consumerName ++ " must be used within " ++ TABS_NAME)

/-- TabsList rendering through the context consumer: fails when no provider is
in scope. -/
def TabsList.renderChecked (ctx : Option TabsContextValue) (loop : Bool) :
    Except String ListElement :=
  (useTabsContext TAB_LIST_NAME ctx).map (fun c => TabsList.render c loop)

/-- TabsTrigger rendering through the context consumer: fails when no provider
is in scope. -/
def TabsTrigger.renderChecked (ctx : Option TabsContextValue) (value : String)
    (disabled : Bool) : Except String TriggerElement :=
  (useTabsContext TRIGGER_NAME ctx).map (fun c => TabsTrigger.render c value disabled)

/-- TabsContent rendering through the context consumer: fails when no provider
is in scope. -/
def TabsContent.renderChecked {α : Type} (ctx : Option TabsContextValue)
    (value : String) (children : α) : Except String (ContentElement α) :=
  (useTabsContext CONTENT_NAME ctx).map (fun c => TabsContent.render c value children)

/-- Helper: a duplicate-free list has at most one element satisfying a
predicate that holds for at most one string. -/
theorem countP_le_one_of_unique {p : String → Bool} {l : List String} (hl : l.Nodup)
    (hp : ∀ a b, p a = true → p b = true → a = b) : l.countP p ≤ 1 := by
  induction l with
  | nil => simp
  | cons x xs ih =>
    rw [List.countP_cons]
    rcases List.nodup_cons.mp hl with ⟨hx, hxs⟩
    by_cases hpx : p x = true
    · have hzero : xs.countP p = 0 := by
        rw [List.countP_eq_zero]
        intro a ha hpa
        exact hx ((hp a x hpa hpx) ▸ ha)
      simp [hzero, hpx]
    · simp only [Bool.not_eq_true] at hpx
      simpa [hpx] using ih hxs

/-- Claim C1: among mounted content panels with pairwise distinct values, at
most one has isSelected true, and a panel is selected exactly when its value
equals the selection value published in the context. -/
theorem tabs_selection_exclusivity (ctx : TabsContextValue) (vals : List String)
    (hnd : vals.Nodup) :
    vals.countP (fun c => isSelected c ctx.value) ≤ 1 ∧
      ∀ c ∈ vals, (isSelected c ctx.value = true ↔ ctx.value = some c) := by
  constructor
  · refine countP_le_one_of_unique hnd ?_
    intro a b ha hb
    simp only [isSelected, beq_iff_eq] at ha hb
    exact Option.some.inj (ha.trans hb.symm)
  · intro c _
    simp only [isSelected, beq_iff_eq]
    exact eq_comm

set_option maxRecDepth 4096 in
/-- Witness for C1 at the context value "a" and panels "a", "b", "c". -/
theorem tabs_selection_exclusivity_witness :
    (["a", "b", "c"] : List String).Nodup ∧
      ((["a", "b", "c"] : List String).countP (fun c => isSelected c (some "a")) ≤ 1 ∧
        ∀ c ∈ (["a", "b", "c"] : List String),
          (isSelected c (some "a") = true ↔ (some "a" : Option String) = some c)) :=
  ⟨by decide,
    tabs_selection_exclusivity
      ⟨"x1", some "a", "horizontal", "ltr", ActivationMode.automatic⟩
      ["a", "b", "c"] (by decide)⟩

/-- Claim C2: the derived trigger and content identifiers are exactly the
stated concatenations, the content aria-labelledby equals the id of the
trigger with the same value, and the trigger aria-controls equals the id of
the content with the same value. -/
theorem tabs_identifier_determinism (ctx : TabsContextValue) (value : String)
    (disabled : Bool) (children : Unit) :
    makeTriggerId ctx.baseId value = ctx.baseId ++ "-trigger-" ++ value ∧
    makeContentId ctx.baseId value = ctx.baseId ++ "-content-" ++ value ∧
    (TabsContent.render ctx value children).ariaLabelledBy =
      (TabsTrigger.render ctx value disabled).id ∧
    (TabsTrigger.render ctx value disabled).ariaControls =
      (TabsContent.render ctx value children).id :=
  ⟨rfl, rfl, rfl, rfl⟩

/-- Claim C3: the rendered panel always keeps its stable id, carries the
hidden marker exactly when not selected, and renders its children exactly when
selected. -/
theorem tabs_content_hidden {α : Type} (ctx : TabsContextValue) (value : String)
    (children : α) :
    (TabsContent.render ctx value children).id = makeContentId ctx.baseId value ∧
    (TabsContent.render ctx value children).hidden = !(isSelected value ctx.value) ∧
    (TabsContent.render ctx value children).renderedChildren =
      (if isSelected value ctx.value then some children else none) :=
  ⟨rfl, rfl, rfl⟩

/-- Claim C4: on a non-disabled trigger, focus invokes the change callback
with the value exactly when not already selected and the activation mode is
not manual; under manual activation mode focus never changes the selection. -/
theorem tabs_trigger_focus_activation (ctx : TabsContextValue) (value : String)
    (disabled : Bool) :
    ((TabsTrigger.render ctx value false).onFocus () = some value ↔
      (isSelected value ctx.value = false ∧
        ctx.activationMode ≠ ActivationMode.manual)) ∧
    (TabsTrigger.render { ctx with activationMode := ActivationMode.manual }
        value disabled).onFocus () = none := by
  constructor
  · simp only [TabsTrigger.render, TabsTrigger.onFocusHandler]
    by_cases h1 : isSelected value ctx.value <;>
      by_cases h2 : ctx.activationMode = ActivationMode.manual <;>
        simp [h1, h2]
  · simp [TabsTrigger.render, TabsTrigger.onFocusHandler]

/-- Claim C5: a disabled trigger never invokes the change callback through any
of the three interaction paths, regardless of activation mode. -/
theorem tabs_trigger_disabled_exclusion (ctx : TabsContextValue) (value : String)
    (kev : KeyboardEvent) (mev : MouseEvent) :
    (TabsTrigger.render ctx value true).onKeyDown kev = none ∧
    (TabsTrigger.render ctx value true).onMouseDown mev = none ∧
    (TabsTrigger.render ctx value true).onFocus () = none := by
  refine ⟨?_, ?_, ?_⟩ <;>
    simp [TabsTrigger.render, TabsTrigger.onKeyDownHandler,
      TabsTrigger.onMouseDownHandler, TabsTrigger.onFocusHandler]

/-- Claim C6: on a non-disabled trigger, mouse-down invokes the change
callback with the value exactly when the button is the primary (left) button
and the control key is not held. -/
theorem tabs_trigger_mousedown (ctx : TabsContextValue) (value : String)
    (mev : MouseEvent) :
    (TabsTrigger.render ctx value false).onMouseDown mev = some value ↔
      (mev.button = 0 ∧ mev.ctrlKey = false) := by
  simp only [TabsTrigger.render, TabsTrigger.onMouseDownHandler]
  by_cases h1 : mev.button = 0 <;> by_cases h2 : mev.ctrlKey <;> simp [h1, h2]

/-- Claim C7: on a non-disabled trigger, key-down invokes the change callback
with the value exactly when the key is Space or Enter. -/
theorem tabs_trigger_keydown (ctx : TabsContextValue) (value : String)
    (kev : KeyboardEvent) :
    (TabsTrigger.render ctx value false).onKeyDown kev = some value ↔
      (kev.key = " " ∨ kev.key = "Enter") := by
  simp only [TabsTrigger.render, TabsTrigger.onKeyDownHandler]
  by_cases h1 : kev.key = " " <;> by_cases h2 : kev.key = "Enter" <;> simp [h1, h2]

/-- Claim C8: in controlled mode the external value is always the one
published, and a change request leaves the state unchanged while invoking the
callback with the requested value; in uncontrolled mode a change request
mutates the internal cell (the published value becomes the requested one) and
invokes the same callback. -/
theorem tabs_controllable_state (p : String) (i : Option String) (v : String) :
    (ControllableState.mk (some p) i).value = some p ∧
    ((ControllableState.mk (some p) i).setValue v).1 = ControllableState.mk (some p) i ∧
    ((ControllableState.mk (some p) i).setValue v).2 = v ∧
    ((ControllableState.mk none i).setValue v).1.value = some v ∧
    ((ControllableState.mk none i).setValue v).2 = v :=
  ⟨rfl, rfl, rfl, rfl, rfl⟩

/-- Claim C9: rendering the list, trigger or content without an enclosing root
context fails with a descriptive error naming the misused unit and the
expected provider. -/
theorem tabs_context_misuse_error (loop disabled : Bool) (value : String) :
    TabsList.renderChecked none loop =
      Except.error (TAB_LIST_NAME ++ " must be used within " ++ TABS_NAME) ∧
    TabsTrigger.renderChecked none value disabled =
      Except.error (TRIGGER_NAME ++ " must be used within " ++ TABS_NAME) ∧
    TabsContent.renderChecked none value () =
      Except.error (CONTENT_NAME ++ " must be used within " ++ TABS_NAME) :=
  ⟨rfl, rfl, rfl⟩

/-- Claim C10: on a non-disabled trigger whose value equals the current
selection, Space and Enter key-down and a primary-button no-control mouse-down
still invoke the change callback with that same value, while the focus path
(guarded by isSelected) does not. -/
theorem tabs_trigger_reselect (b o d : String) (m : ActivationMode) (value : String) :
    (TabsTrigger.render ⟨b, some value, o, d, m⟩ value false).onKeyDown ⟨" "⟩ =
      some value ∧
    (TabsTrigger.render ⟨b, some value, o, d, m⟩ value false).onKeyDown ⟨"Enter"⟩ =
      some value ∧
    (TabsTrigger.render ⟨b, some value, o, d, m⟩ value false).onMouseDown ⟨0, false⟩ =
      some value ∧
    (TabsTrigger.render ⟨b, some value, o, d, m⟩ value false).onFocus () = none := by
  refine ⟨?_, ?_, ?_, ?_⟩ <;>
    simp [TabsTrigger.render, TabsTrigger.onKeyDownHandler,
      TabsTrigger.onMouseDownHandler, TabsTrigger.onFocusHandler, isSelected]
